import Mathlib

/-! Element, the graph node core.

A shallow embedding of `Element::GraphNode` (src/engine/GraphNode.h) and of the
library value types its inline members use, followed by the properties proved
about it.

Conventions of the embedding

* A C++ `int` is a Lean `Int`.  No arithmetic is performed on the cells modelled
  here (they are only stored, loaded and compared), so no wrap-around arises.
* An `Atomic<T>` cell is a field of type `T`: `get` reads the field and `set`
  replaces it.  Locks (`ScopedLock`) guard against concurrent access only and
  have no effect on the sequential state transition.
* A `const` member function is a function of the node state, a mutating member
  function returns the successor state.
* `jassert (e)` compiles to nothing in a release build, and in a debug build it
  logs and lets execution continue.  It never changes the state transition, so
  each mutator that carries assertions is embedded as the store it performs,
  next to a Boolean that says whether all of its assertions hold.
-/

namespace Element

/-! Library value types -/

/-- IEEE-754 binary32, the representation of a C++ `float`: a value is its
sign bit, its 8 exponent bits and its 23 fraction bits. -/
structure Float32 where
  sign : Bool
  exponent : Fin 256
  mantissa : Fin 8388608
deriving DecidableEq, Repr

namespace Float32

/-- The literal `0.0f`. -/
def zero : Float32 := ⟨false, 0, 0⟩

/-- The literal `-0.0f`. -/
def negZero : Float32 := ⟨true, 0, 0⟩

/-- The literal `0.5f`, which is `2 ^ (126 - 127)`. -/
def half : Float32 := ⟨false, 126, 0⟩

/-- The literal `1.0f`. -/
def one : Float32 := ⟨false, 127, 0⟩

/-- A quiet NaN. -/
def nan : Float32 := ⟨false, 255, 4194304⟩

/-- Not-a-number: all exponent bits set and a non-zero fraction. -/
def isNaN (f : Float32) : Bool := f.exponent == 255 && f.mantissa != 0

/-- Either of the two zeros. -/
def isZero (f : Float32) : Bool := f.exponent == 0 && f.mantissa == 0

/-- The C++ operator `a == b` on floats: false as soon as one side is a NaN,
otherwise true when the two are the same datum or are both zeros. -/
def eq (a b : Float32) : Bool :=
  !a.isNaN && !b.isNaN && (decide (a = b) || (a.isZero && b.isZero))

/-- The C++ operator `a != b` on floats, the negation of `a == b`. -/
def ne (a b : Float32) : Bool := !(eq a b)

/-- Two floats hold the same value: they are the same datum, or they are the
two zeros, which compare equal. -/
def same (a b : Float32) : Prop := a = b ∨ (a.isZero = true ∧ b.isZero = true)

instance (a b : Float32) : Decidable (same a b) := by
  unfold same; infer_instance

end Float32

/-- The template function `juce::isPositiveAndBelow (value, upperLimit)`. -/
def isPositiveAndBelow (valueToTest upperLimit : Int) : Bool :=
  decide (0 ≤ valueToTest) && decide (valueToTest < upperLimit)

/-- A `juce::Range<int>`: a start and an end. -/
structure Range where
  start : Int
  «end» : Int
deriving DecidableEq, Repr

namespace Range

/-- The two-argument constructor of `juce::Range`, whose initialiser list is
`start (startValue), end (jmax (startValue, endValue))`. -/
def make (startValue endValue : Int) : Range :=
  ⟨startValue, max startValue endValue⟩

/-- The accessor `Range::getStart`. -/
def getStart (r : Range) : Int := r.start

/-- The accessor `Range::getEnd`. -/
def getEnd (r : Range) : Int := r.«end»

/-- The mutator `Range::setStart`: the end is pushed along when the new start
lies beyond it. -/
def setStart (r : Range) (newStart : Int) : Range :=
  ⟨newStart, if r.«end» < newStart then newStart else r.«end»⟩

/-- The mutator `Range::setEnd`: the start is pushed along when the new end lies
before it. -/
def setEnd (r : Range) (newEnd : Int) : Range :=
  ⟨if newEnd < r.start then newEnd else r.start, newEnd⟩

end Range

/-- A `juce::BigInteger` used as a bit set: the natural number whose binary
digits are the bits. -/
abbrev BigInteger := Nat

namespace BigInteger

/-- The operator `BigInteger::operator[] (int bit)`: the bit at that position,
false for a negative position and for one above the highest set bit. -/
def get (b : BigInteger) (bit : Int) : Bool :=
  decide (0 ≤ bit) && Nat.testBit b bit.toNat

end BigInteger

/-- A `juce::OwnedArray<AtomicValue<float>>`: the array of metering cells, each
given by the float it holds. -/
abbrev CellArray := List Float32

namespace CellArray

/-- The member `size()` of the array, an `int`. -/
def size (a : CellArray) : Int := (a.length : Int)

/-- The expression `array.getUnchecked (index)->get()`.  `getUnchecked` performs
no bounds check of its own (it only asserts `isPositiveAndBelow (index, size)`),
so an index outside the array is an out-of-range element access with undefined
behaviour, which is the result `none`. -/
def getUnchecked (a : CellArray) (index : Int) : Option Float32 :=
  if isPositiveAndBelow index a.size then a[index.toNat]? else none

end CellArray

/-! Parts of the node that are declared in GraphNode.h and defined elsewhere -/

/-- Modelled from the spec: the `PortType` enumeration, which is not among the
sources.  The spec classifies ports as audio, MIDI, control and event ports, and
names an unknown sentinel for a port index that is out of range. -/
inductive PortType where
  | audio
  | midi
  | control
  | event
  | unknown
deriving DecidableEq, Repr

/-- A port as the port model sees it: its type and its direction. -/
structure Port where
  type : PortType
  isInput : Bool
deriving DecidableEq, Repr

/-- Modelled from the spec: the `ChannelConfig` class, which is not among the
sources.  It caches the audio-in, audio-out, midi-in and midi-out counts of the
wrapped processor. -/
structure ChannelConfig where
  audioIns : Nat
  audioOuts : Nat
  midiIns : Nat
  midiOuts : Nat
deriving DecidableEq, Repr

/-- Modelled from the spec: the flat port index space, which is not among the
sources.  Ports are ordered audio inputs, then audio outputs, then MIDI input,
then MIDI output; the entry at position `p` describes port `p`. -/
def ChannelConfig.ports (c : ChannelConfig) : List Port :=
  List.replicate c.audioIns ⟨PortType.audio, true⟩
    ++ List.replicate c.audioOuts ⟨PortType.audio, false⟩
    ++ List.replicate c.midiIns ⟨PortType.midi, true⟩
    ++ List.replicate c.midiOuts ⟨PortType.midi, false⟩

/-- Modelled from the spec: the forward mapping from a channel of one
type-and-direction group to its port, over a list of ports.  The ports are
walked in index order and the ports of the group are tallied until the wanted
channel is reached; there is no result when the group has too few ports. -/
def portOfChannel (key : Port) : List Port → Nat → Option Nat
  | [], _ => none
  | p :: ps, c =>
    if p = key then
      match c with
      | 0 => some 0
      | c + 1 => (portOfChannel key ps c).map (· + 1)
    else (portOfChannel key ps c).map (· + 1)

/-- Modelled from the spec: the `MidiChannels` class, which is not among the
sources.  It is a 17-slot membership set: bit 0 is the omni bit and bits 1 to 16
are the MIDI channels. -/
structure MidiChannels where
  channels : BigInteger
deriving DecidableEq, Repr

namespace MidiChannels

/-- Modelled from the spec: `setChannels (set)` of the absent `MidiChannels`
class replaces the entire membership set. -/
def setChannels (_m : MidiChannels) (newChannels : BigInteger) : MidiChannels :=
  ⟨newChannels⟩

/-- Modelled from the spec: `get()` of the absent `MidiChannels` class is a
read-only query of the membership set. -/
def get (m : MidiChannels) : BigInteger := m.channels

/-- Modelled from the spec: the membership test of the absent `MidiChannels`
class.  An event on a 1-based channel is accepted when the omni bit is set,
regardless of the individual bits, or when the bit of that channel is set. -/
def isOn (m : MidiChannels) (channel : Int) : Bool :=
  BigInteger.get m.channels 0 || BigInteger.get m.channels channel

end MidiChannels

/-! The graph node -/

/-- The data members of `Element::GraphNode` that the port model, the parameter
cells, the meters and the MIDI filter consist of.  The default member
initialisers of the header (`enabled { 1 }`, `keyRangeLow { 0 }`,
`keyRangeHigh { 127 }`, `transposeOffset { 0 }`) are the field defaults. -/
structure GraphNode where
  enabled : Int := 1
  gain : Float32
  lastGain : Float32
  inputGain : Float32
  lastInputGain : Float32
  inRMS : CellArray
  outRMS : CellArray
  channels : ChannelConfig
  keyRangeLow : Int := 0
  keyRangeHigh : Int := 127
  transposeOffset : Int := 0
  midiChannels : MidiChannels
deriving DecidableEq, Repr

namespace GraphNode

/-- A freshly constructed node.  The constructor body is in GraphNode.cpp, which
is not among the sources, so the members without a default member initialiser
in the header are arguments; the other cells take their initialiser. -/
def construct (gain lastGain inputGain lastInputGain : Float32)
    (inRMS outRMS : CellArray) (channels : ChannelConfig)
    (midiChannels : MidiChannels) : GraphNode :=
  { gain := gain, lastGain := lastGain, inputGain := inputGain,
    lastInputGain := lastInputGain, inRMS := inRMS, outRMS := outRMS,
    channels := channels, midiChannels := midiChannels }

/-! Port model (declared in the header, modelled from the spec) -/

/-- Modelled from the spec: `getNumPorts()`, defined in the absent
GraphNode.cpp, is the total number of ports. -/
def getNumPorts (n : GraphNode) : Nat := n.channels.ports.length

/-- Modelled from the spec: `getPortType (port)`, defined in the absent
GraphNode.cpp, is the type of the port, and the unknown sentinel when the port
is out of range. -/
def getPortType (n : GraphNode) (port : Nat) : PortType :=
  match n.channels.ports[port]? with
  | some p => p.type
  | none => PortType.unknown

/-- Modelled from the spec: `isPortInput (port)`, defined in the absent
GraphNode.cpp, is derived from the direction of the port. -/
def isPortInput (n : GraphNode) (port : Nat) : Bool :=
  match n.channels.ports[port]? with
  | some p => p.isInput
  | none => false

/-- Modelled from the spec: `getNumPorts (type, isInput)`, defined in the absent
GraphNode.cpp, is the count of ports matching the filter. -/
def getNumPortsOf (n : GraphNode) (type : PortType) (isInput : Bool) : Int :=
  ((n.channels.ports.count ⟨type, isInput⟩ : Nat) : Int)

/-- Modelled from the spec: `getPortForChannel (type, channel, isInput)`,
defined in the absent GraphNode.cpp, is the forward mapping from a channel of a
type-and-direction group to its port.  There is no port (`none`) for a channel
that the group does not have. -/
def getPortForChannel (n : GraphNode) (type : PortType) (channel : Int)
    (isInput : Bool) : Option Nat :=
  if channel < 0 then none
  else portOfChannel ⟨type, isInput⟩ n.channels.ports channel.toNat

/-- Modelled from the spec: `getChannelPort (port)`, defined in the absent
GraphNode.cpp, is the channel index of the port within its type-and-direction
group, that is the number of ports of the same type and direction that come
before it.  There is no channel (`none`) for a port that is out of range. -/
def getChannelPort (n : GraphNode) (port : Nat) : Option Int :=
  match n.channels.ports[port]? with
  | some p => some ((((n.channels.ports.take port).count p : Nat)) : Int)
  | none => none

/-! Gain cells -/

/-- Modelled from the spec: `setInputGain (f)`, defined in the absent
GraphNode.cpp, publishes the new value in the `inputGain` cell. -/
def setInputGain (n : GraphNode) (f : Float32) : GraphNode :=
  { n with inputGain := f }

/-- Modelled from the spec: `setGain (f)`, defined in the absent GraphNode.cpp,
publishes the new value in the `gain` cell. -/
def setGain (n : GraphNode) (f : Float32) : GraphNode :=
  { n with gain := f }

/-- The accessor `getInputGain()`. -/
def getInputGain (n : GraphNode) : Float32 := n.inputGain

/-- The accessor `getGain()`. -/
def getGain (n : GraphNode) : Float32 := n.gain

/-- The accessor `getLastGain()`. -/
def getLastGain (n : GraphNode) : Float32 := n.lastGain

/-- The accessor `getLastInputGain()`. -/
def getLastInputGain (n : GraphNode) : Float32 := n.lastInputGain

/-- The member `updateGain()`: each cached cell is assigned the live cell when
the two compare unequal. -/
def updateGain (n : GraphNode) : GraphNode :=
  let n1 : GraphNode :=
    if Float32.ne n.lastGain n.gain then { n with lastGain := n.gain } else n
  if Float32.ne n1.lastInputGain n1.inputGain then
    { n1 with lastInputGain := n1.inputGain }
  else n1

/-! Meters -/

/-- The member `getInputRMS (chan)`:
`(chan < inRMS.size()) ? inRMS.getUnchecked(chan)->get() : 0.0f`. -/
def getInputRMS (n : GraphNode) (chan : Int) : Option Float32 :=
  if chan < n.inRMS.size then n.inRMS.getUnchecked chan else some Float32.zero

/-- The member `getOutputRMS (chan)`:
`(chan < outRMS.size()) ? outRMS.getUnchecked(chan)->get() : 0.0f`. -/
def getOutputRMS (n : GraphNode) (chan : Int) : Option Float32 :=
  if chan < n.outRMS.size then n.outRMS.getUnchecked chan else some Float32.zero

/-! Enablement, key range, transposition, MIDI channels -/

/-- The member `isEnabled()`: `enabled.get() == 1`. -/
def isEnabled (n : GraphNode) : Bool := n.enabled == 1

/-- The three assertions at the head of `setKeyRange (low, high)`. -/
def setKeyRangeAsserts (low high : Int) : Bool :=
  decide (low ≤ high) && isPositiveAndBelow low 128 && isPositiveAndBelow high 128

/-- The member `setKeyRange (low, high)`: after the assertions,
`keyRangeLow.set (low); keyRangeHigh.set (high);`. -/
def setKeyRange (n : GraphNode) (low high : Int) : GraphNode :=
  { n with keyRangeLow := low, keyRangeHigh := high }

/-- The overload `setKeyRange (const Range<int>& range)`, which forwards
`range.getStart()` and `range.getEnd()` to the two-argument member. -/
def setKeyRangeOfRange (n : GraphNode) (range : Range) : GraphNode :=
  n.setKeyRange range.getStart range.getEnd

/-- The member `getKeyRange()`:
`Range<int> { keyRangeLow.get(), keyRangeHigh.get() }`. -/
def getKeyRange (n : GraphNode) : Range :=
  Range.make n.keyRangeLow n.keyRangeHigh

/-- The assertion at the head of `setTransposeOffset (value)`. -/
def setTransposeOffsetAsserts (value : Int) : Bool :=
  decide (value ≥ -24) && decide (value ≤ 24)

/-- The member `setTransposeOffset (value)`: after the assertion,
`transposeOffset.set (value);`. -/
def setTransposeOffset (n : GraphNode) (value : Int) : GraphNode :=
  { n with transposeOffset := value }

/-- The member `getTransposeOffset()`. -/
def getTransposeOffset (n : GraphNode) : Int := n.transposeOffset

/-- The member `setMidiChannels (ch)`: under the property lock,
`midiChannels.setChannels (ch);`. -/
def setMidiChannels (n : GraphNode) (ch : BigInteger) : GraphNode :=
  { n with midiChannels := n.midiChannels.setChannels ch }

/-- The member `getMidiChannels()`. -/
def getMidiChannels (n : GraphNode) : MidiChannels := n.midiChannels

/-- The invariant the spec gives for the key-range cells:
`0 ≤ low ≤ high ≤ 127`. -/
def keyRangeInvariant (n : GraphNode) : Prop :=
  0 ≤ n.keyRangeLow ∧ n.keyRangeLow ≤ n.keyRangeHigh ∧ n.keyRangeHigh ≤ 127

instance (n : GraphNode) : Decidable (keyRangeInvariant n) := by
  unfold keyRangeInvariant; infer_instance

/-- The invariant the spec gives for the transposition cell:
`-24 ≤ offset ≤ 24`. -/
def transposeInvariant (n : GraphNode) : Prop :=
  -24 ≤ n.transposeOffset ∧ n.transposeOffset ≤ 24

instance (n : GraphNode) : Decidable (transposeInvariant n) := by
  unfold transposeInvariant; infer_instance

end GraphNode

/-- A node to evaluate the members on: unit gains, two input and two output
meters, a stereo processor with one MIDI input and one MIDI output, omni. -/
def sampleNode : GraphNode :=
  GraphNode.construct Float32.one Float32.one Float32.one Float32.one
    [Float32.half, Float32.one] [Float32.one, Float32.half] ⟨2, 2, 1, 1⟩ ⟨1⟩

/-- A node before `prepare`: no meter has been allocated and there is no port. -/
def bareNode : GraphNode :=
  GraphNode.construct Float32.one Float32.one Float32.one Float32.one
    [] [] ⟨0, 0, 0, 0⟩ ⟨1⟩

/-- A node whose gains and cached gains are all `-0.0f`: the state after
`setGain (-0.0f)`, `setInputGain (-0.0f)` and one `updateGain ()`. -/
def negZeroGainNode : GraphNode :=
  GraphNode.construct Float32.negZero Float32.negZero Float32.negZero Float32.negZero
    [] [] ⟨0, 0, 0, 0⟩ ⟨1⟩

/-- A node whose live gains are `0.0f` while its cached gains are `-0.0f`. -/
def mixedZeroGainNode : GraphNode :=
  GraphNode.construct Float32.zero Float32.negZero Float32.zero Float32.negZero
    [] [] ⟨0, 0, 0, 0⟩ ⟨1⟩

/-- A node whose live gains are a NaN while its cached gains are `1.0f`. -/
def nanGainNode : GraphNode :=
  GraphNode.construct Float32.nan Float32.one Float32.nan Float32.one
    [] [] ⟨0, 0, 0, 0⟩ ⟨1⟩

/-! The node editor view (src/gui/NodeContentView.cpp) -/

/-- The identifiers of `Tags` that NodeContentView.cpp names.  Their
definitions are not among the sources; they are taken to be distinct. -/
inductive Identifier where
  | name
  | midiChannels
  | keyStart
  | keyEnd
  | transpose
deriving DecidableEq, Repr

/-- A `juce::var` as far as the slider handler uses it: void (the value of a
property that is not set) or an int. -/
inductive Var where
  | void
  | int (value : Int)
deriving DecidableEq, Repr

/-- The properties of a `juce::ValueTree` that has an underlying object: the
value held under each identifier. -/
structure ValueTree where
  properties : Identifier → Var

namespace ValueTree

/-- The member `getProperty (name)`. -/
def getProperty (t : ValueTree) (propertyName : Identifier) : Var :=
  t.properties propertyName

/-- The member `setProperty (name, newValue, nullptr)`: the property is set to
the new value and the tree is returned, so that calls can be chained. -/
def setProperty (t : ValueTree) (propertyName : Identifier) (newValue : Var) : ValueTree :=
  ⟨fun i => if i = propertyName then newValue else t.properties i⟩

end ValueTree

/-- The session `Node` handle that the view holds.  The class is declared in
session/Node.h, which is not among the sources, so what its members return is
given: `getGraphNode ()` (the engine object, `none` for a null pointer),
`isValid ()` and `getValueTree ()` (the tree of a node that reports valid has
an underlying object, so `setProperty` takes effect on it). -/
structure Node where
  graphNode : Option GraphNode
  valid : Bool
  data : ValueTree

namespace Node

/-- The member `getGraphNode ()`. -/
def getGraphNode (n : Node) : Option GraphNode := n.graphNode

/-- The member `isValid ()`. -/
def isValid (n : Node) : Bool := n.valid

/-- The member `getValueTree ()`. -/
def getValueTree (n : Node) : ValueTree := n.data

end Node

/-- The `Slider*` argument of `sliderValueChanged`, as the chain of pointer
comparisons tells it apart: one of the three sliders of the view, or any other
slider. -/
inductive SliderId where
  | keyLowSlider
  | keyHiSlider
  | transposeSlider
  | other
deriving DecidableEq, Repr

/-- The range the constructor of the view configures on a slider:
`keyLowSlider.setRange (0, 127, 1.0)`, `keyHiSlider.setRange (0, 127, 1.0)`,
`transposeSlider.setRange (-24, 24, 1)`.  No range is configured for a slider
that is not one of the three. -/
def SliderId.inRange : SliderId → Int → Prop
  | SliderId.keyLowSlider, v => 0 ≤ v ∧ v ≤ 127
  | SliderId.keyHiSlider, v => 0 ≤ v ∧ v ≤ 127
  | SliderId.transposeSlider, v => -24 ≤ v ∧ v ≤ 24
  | SliderId.other, _ => True

instance (s : SliderId) (v : Int) : Decidable (s.inRange v) := by
  cases s <;> unfold SliderId.inRange <;> infer_instance

/-- The state of `NodeContentView` that `sliderValueChanged` reads and writes:
the selected node.  (The three slider widgets are written last, by
`updateSliders ()` with `dontSendNotification`; they are read back by nothing
here and are left out.) -/
structure NodeContentView where
  node : Node

namespace NodeContentView

/-- The part of `sliderValueChanged` that mutates the engine object, by the
slider that triggered the call; `value` is `roundToInt (slider->getValue ())`. -/
def applySlider (object : GraphNode) (slider : SliderId) (value : Int) : GraphNode :=
  match slider with
  | SliderId.keyLowSlider => object.setKeyRangeOfRange (object.getKeyRange.setStart value)
  | SliderId.keyHiSlider => object.setKeyRangeOfRange (object.getKeyRange.setEnd value)
  | SliderId.transposeSlider => object.setTransposeOffset value
  | SliderId.other => object

/-- The assertions of the mutator that `sliderValueChanged` calls, evaluated on
the arguments it passes; true when no mutator is called. -/
def sliderValueChangedAsserts (view : NodeContentView) (slider : SliderId)
    (value : Int) : Bool :=
  match view.node.getGraphNode with
  | none => true
  | some object =>
    if !view.node.isValid then true
    else
      match slider with
      | SliderId.keyLowSlider =>
        GraphNode.setKeyRangeAsserts (object.getKeyRange.setStart value).getStart
          (object.getKeyRange.setStart value).getEnd
      | SliderId.keyHiSlider =>
        GraphNode.setKeyRangeAsserts (object.getKeyRange.setEnd value).getStart
          (object.getKeyRange.setEnd value).getEnd
      | SliderId.transposeSlider => GraphNode.setTransposeOffsetAsserts value
      | SliderId.other => true

/-- The member `sliderValueChanged (slider)`, with `value` standing for
`roundToInt (slider->getValue ())`: nothing happens for a null object or a node
that is not valid; otherwise the engine object is mutated by the slider that
triggered the call and the key range and the transposition are read back from
it into the `keyStart`, `keyEnd` and `transpose` properties of the tree. -/
def sliderValueChanged (view : NodeContentView) (slider : SliderId)
    (value : Int) : NodeContentView :=
  match view.node.getGraphNode with
  | none => view
  | some object =>
    if !view.node.isValid then view
    else
      let object1 := applySlider object slider value
      let range := object1.getKeyRange
      let data :=
        ((view.node.getValueTree.setProperty Identifier.keyStart (Var.int range.getStart)).setProperty
            Identifier.keyEnd (Var.int range.getEnd)).setProperty
          Identifier.transpose (Var.int object1.getTransposeOffset)
      { node := { graphNode := some object1, valid := view.node.valid, data := data } }

end NodeContentView

/-- A tree with no property set. -/
def emptyTree : ValueTree := ⟨fun _ => Var.void⟩

/-- A view whose selected node is the sample node with the key range from 10 to
20 stored, valid, with no property set on its tree. -/
def sampleView : NodeContentView :=
  ⟨⟨some (sampleNode.setKeyRange 10 20), true, emptyTree⟩⟩

/-- A view whose selected node is the sample node with the transposition 30
stored (its key range is the initial one, from 0 to 127), valid, with no
property set on its tree. -/
def offsetView : NodeContentView :=
  ⟨⟨some (sampleNode.setTransposeOffset 30), true, emptyTree⟩⟩

namespace BigInteger

/-- The member `setBit (bit)`: the bit is set when the position is not
negative. -/
def setBit (b : BigInteger) (bit : Int) : BigInteger :=
  if 0 ≤ bit then b ||| 2 ^ bit.toNat else b

/-- The member `clearBit (bit)`: the bit is cleared when the position is not
negative (clearing a bit above the highest set bit changes nothing). -/
def clearBit (b : BigInteger) (bit : Int) : BigInteger :=
  if 0 ≤ bit then b ^^^ (b &&& 2 ^ bit.toNat) else b

/-- The overload `setBit (bit, shouldBeSet)`, which sets or clears the bit. -/
def setBitTo (b : BigInteger) (bit : Int) (shouldBeSet : Bool) : BigInteger :=
  if shouldBeSet then b.setBit bit else b.clearBit bit

/-- The loop of `setRange`: `while (--numBits >= 0) setBit (startBit++, shouldBeSet);`
with the number of rounds that remain. -/
def setRangeLoop : Nat → BigInteger → Int → Bool → BigInteger
  | 0, b, _, _ => b
  | rounds + 1, b, startBit, shouldBeSet =>
    setRangeLoop rounds (b.setBitTo startBit shouldBeSet) (startBit + 1) shouldBeSet

/-- The member `setRange (startBit, numBits, shouldBeSet)`; a negative
`numBits` gives no round. -/
def setRange (b : BigInteger) (startBit numBits : Int) (shouldBeSet : Bool) : BigInteger :=
  setRangeLoop numBits.toNat b startBit shouldBeSet

end BigInteger

namespace NodeContentView

/-- The channel set that the `onDoubleClicked` handler of the MIDI Ch. label
builds: `BigInteger chans; chans.setRange (0, 17, false); chans.setBit (0, true);`. -/
def resetChannels : BigInteger :=
  BigInteger.setBitTo (BigInteger.setRange (0 : Nat) 0 17 false) 0 true

/-- The `onDoubleClicked` handler of the MIDI Ch. label, which hands the set
it builds to `midiChannel.setChannels`.  The channel selector widget is not
among the sources, so the widget and its `setChannels` are arguments. -/
def midiChannelLabelOnDoubleClicked {Widget : Type} (setChannels : Widget → BigInteger → Widget)
    (midiChannel : Widget) : Widget :=
  setChannels midiChannel resetChannels

end NodeContentView

/-! The session (src/session/Session.h) -/

/-- The member of `Element::Session` that the frozen lock works on, with its
default member initialiser `freezeChangeNotification = false`. -/
structure Session where
  freezeChangeNotification : Bool := false
deriving DecidableEq, Repr

/-- The member `Session::notificationsFrozen ()`. -/
def Session.notificationsFrozen (s : Session) : Bool := s.freezeChangeNotification

/-- A `Session::ScopedFrozenLock`: the saved flag.  (Its other member is the
reference to the session, which the operations below take as an argument.) -/
structure ScopedFrozenLock where
  wasFrozen : Bool
deriving DecidableEq, Repr

namespace ScopedFrozenLock

/-- The constructor: `wasFrozen = session.freezeChangeNotification;
session.freezeChangeNotification = true;`.  It yields the lock and the session
as the constructor leaves it. -/
def construct (session : Session) : ScopedFrozenLock × Session :=
  (⟨session.freezeChangeNotification⟩, { session with freezeChangeNotification := true })

/-- The destructor: `session.freezeChangeNotification = wasFrozen;`. -/
def destroy (lock : ScopedFrozenLock) (session : Session) : Session :=
  { session with freezeChangeNotification := lock.wasFrozen }

end ScopedFrozenLock

/-- What happens to the locks of one session as scopes are entered and left: a
lock is constructed, or the lock constructed last among the live ones is
destroyed (automatic objects are destroyed in the reverse order of their
construction). -/
inductive ScopeEvent where
  | enter
  | leave
deriving DecidableEq, Repr

/-- A session together with its live locks, the innermost first. -/
structure Scopes where
  session : Session
  locks : List ScopedFrozenLock
deriving DecidableEq, Repr

namespace Scopes

/-- One event.  There is no lock to destroy when none is live, which is the
result `none`. -/
def step (s : Scopes) : ScopeEvent → Option Scopes
  | ScopeEvent.enter =>
    some ⟨(ScopedFrozenLock.construct s.session).2,
      (ScopedFrozenLock.construct s.session).1 :: s.locks⟩
  | ScopeEvent.leave =>
    match s.locks with
    | [] => none
    | lock :: rest => some ⟨lock.destroy s.session, rest⟩

/-- A sequence of events, from left to right. -/
def run (s : Scopes) : List ScopeEvent → Option Scopes
  | [] => some s
  | e :: es =>
    match s.step e with
    | none => none
    | some s1 => run s1 es

/-- The flags that a stack of live locks and the session flag must hold when
the flag was `b` before the outermost lock: the session flag is true while a
lock is live, each inner lock saved true, and the outermost lock saved `b`. -/
def chain (b : Bool) : List ScopedFrozenLock → Bool → Prop
  | [], current => current = b
  | lock :: rest, current => current = true ∧ chain b rest lock.wasFrozen

end Scopes

/-! Helper lemmas -/

theorem isPositiveAndBelow_iff (v u : Int) :
    isPositiveAndBelow v u = true ↔ 0 ≤ v ∧ v < u := by
  simp [isPositiveAndBelow]

theorem setKeyRangeAsserts_iff (low high : Int) :
    GraphNode.setKeyRangeAsserts low high = true ↔ 0 ≤ low ∧ low ≤ high ∧ high ≤ 127 := by
  simp only [GraphNode.setKeyRangeAsserts, Bool.and_eq_true, decide_eq_true_eq,
    isPositiveAndBelow_iff]
  constructor
  · rintro ⟨⟨h1, h2, _⟩, _, h5⟩
    exact ⟨h2, h1, by omega⟩
  · rintro ⟨h1, h2, h3⟩
    exact ⟨⟨h2, h1, by omega⟩, by omega, by omega⟩

theorem setTransposeOffsetAsserts_iff (value : Int) :
    GraphNode.setTransposeOffsetAsserts value = true ↔ -24 ≤ value ∧ value ≤ 24 := by
  simp [GraphNode.setTransposeOffsetAsserts]

theorem Float32.same_of_ne_false (a b : Float32) (h : Float32.ne a b = false) :
    Float32.same a b := by
  unfold Float32.ne Float32.eq at h
  rw [Bool.not_eq_false_eq_eq_true] at h
  simp only [Bool.and_eq_true, Bool.or_eq_true, decide_eq_true_eq] at h
  exact h.2

theorem updateGain_eq (m : GraphNode) :
    m.updateGain =
      { m with
        lastGain := if Float32.ne m.lastGain m.gain = true then m.gain else m.lastGain,
        lastInputGain := if Float32.ne m.lastInputGain m.inputGain = true then m.inputGain
          else m.lastInputGain } := by
  unfold GraphNode.updateGain
  by_cases h1 : Float32.ne m.lastGain m.gain = true <;>
    by_cases h2 : Float32.ne m.lastInputGain m.inputGain = true <;> simp [h1, h2]

theorem Float32.same_ite_ne (a b : Float32) :
    Float32.same (if Float32.ne a b = true then b else a) b := by
  by_cases hab : Float32.ne a b = true
  · rw [if_pos hab]; exact Or.inl rfl
  · rw [if_neg hab]
    exact Float32.same_of_ne_false a b (by simpa using hab)

theorem Float32.ite_ne_idem (a b : Float32) :
    (if Float32.ne (if Float32.ne a b = true then b else a) b = true then b
      else (if Float32.ne a b = true then b else a))
      = (if Float32.ne a b = true then b else a) := by
  by_cases hab : Float32.ne a b = true
  · simp [hab]
  · simp [hab]

theorem Float32.isZero_eq_false_of_isNaN (a : Float32) (h : a.isNaN = true) :
    a.isZero = false := by
  unfold Float32.isNaN at h
  unfold Float32.isZero
  simp only [Bool.and_eq_true, beq_iff_eq] at h
  rw [h.1]
  rfl

theorem Float32.ite_ne_eq_ite_isZero (a b : Float32) :
    (if Float32.ne a b = true then b else a)
      = if (a.isZero && b.isZero) = true then a else b := by
  by_cases hab : Float32.ne a b = true
  · rw [if_pos hab]
    have hz : ¬ (a.isZero && b.isZero) = true := by
      intro hz
      simp only [Bool.and_eq_true] at hz
      unfold Float32.ne Float32.eq at hab
      have ha : a.isNaN = false := by
        cases hna : a.isNaN with
        | false => rfl
        | true => rw [Float32.isZero_eq_false_of_isNaN a hna] at hz; exact absurd hz.1 (by simp)
      have hb : b.isNaN = false := by
        cases hnb : b.isNaN with
        | false => rfl
        | true => rw [Float32.isZero_eq_false_of_isNaN b hnb] at hz; exact absurd hz.2 (by simp)
      simp [ha, hb, hz.1, hz.2] at hab
    rw [if_neg hz]
  · rw [if_neg hab]
    rcases Float32.same_of_ne_false a b (by simpa using hab) with h | ⟨h1, h2⟩
    · subst h
      split_ifs <;> rfl
    · simp [h1, h2]

theorem Float32.eq_ite_ne (a b : Float32) :
    Float32.eq (if Float32.ne a b = true then b else a) b = !b.isNaN := by
  by_cases hab : Float32.ne a b = true
  · rw [if_pos hab]
    simp [Float32.eq]
  · rw [if_neg hab]
    have h : Float32.eq a b = true := by
      unfold Float32.ne at hab
      simpa using hab
    rw [h]
    unfold Float32.eq at h
    simp only [Bool.and_eq_true, Bool.not_eq_true'] at h
    rw [h.1.2]
    rfl

theorem updateGain_getLastGain (m : GraphNode) :
    m.updateGain.getLastGain
      = if Float32.ne m.lastGain m.gain = true then m.gain else m.lastGain := by
  rw [updateGain_eq]; rfl

theorem updateGain_getLastInputGain (m : GraphNode) :
    m.updateGain.getLastInputGain
      = if Float32.ne m.lastInputGain m.inputGain = true then m.inputGain
          else m.lastInputGain := by
  rw [updateGain_eq]; rfl

/-- The C++ comparison `getLastGain () == getGain ()` after `updateGain ()` is
true unless the live gain is a NaN, with which every comparison is false; the
cache then holds that same NaN. -/
theorem updateGain_operator_eq (m : GraphNode) :
    Float32.eq m.updateGain.getLastGain m.updateGain.getGain = !m.gain.isNaN
      ∧ Float32.eq m.updateGain.getLastInputGain m.updateGain.getInputGain
          = !m.inputGain.isNaN := by
  have key : ∀ a b : Float32,
      Float32.eq (if Float32.ne a b = true then b else a) b = !b.isNaN := by
    intro a b
    by_cases hab : Float32.ne a b = true
    · rw [if_pos hab]
      simp [Float32.eq]
    · rw [if_neg hab]
      have h : Float32.eq a b = true := by
        unfold Float32.ne at hab
        simpa using hab
      rw [h]
      unfold Float32.eq at h
      simp only [Bool.and_eq_true, Bool.not_eq_true'] at h
      rw [h.1.2]
      rfl
  rw [updateGain_eq]
  exact ⟨key _ _, key _ _⟩

theorem portOfChannel_spec (key : Port) :
    ∀ (l : List Port) (c : Nat), c < l.count key →
      ∃ p, portOfChannel key l c = some p ∧ l[p]? = some key ∧ (l.take p).count key = c := by
  intro l
  induction l with
  | nil => intro c h; simp at h
  | cons x xs ih =>
    intro c h
    by_cases hx : x = key
    · subst hx
      cases c with
      | zero => exact ⟨0, by simp [portOfChannel], by simp, by simp⟩
      | succ c =>
        have hc : c < xs.count x := by
          simp only [List.count_cons_self] at h
          omega
        obtain ⟨q, hq1, hq2, hq3⟩ := ih c hc
        refine ⟨q + 1, ?_, ?_, ?_⟩
        · simp [portOfChannel, hq1]
        · simpa using hq2
        · simp [List.take_succ_cons, hq3]
    · have hc : c < xs.count key := by
        rw [List.count_cons_of_ne (Ne.symm hx)] at h
        exact h
      obtain ⟨q, hq1, hq2, hq3⟩ := ih c hc
      refine ⟨q + 1, ?_, ?_, ?_⟩
      · simp [portOfChannel, hx, hq1]
      · simpa using hq2
      · rw [List.take_succ_cons, List.count_cons_of_ne (Ne.symm hx)]
        exact hq3

theorem portOfChannel_replicate_ne (key a : Port) (h : a ≠ key) (rest : List Port) (c : Nat) :
    ∀ k : Nat, portOfChannel key (List.replicate k a ++ rest) c
      = (portOfChannel key rest c).map (· + k) := by
  intro k
  induction k with
  | zero => cases hr : portOfChannel key rest c <;> simp [hr]
  | succ k ih =>
    rw [List.replicate_succ, List.cons_append]
    simp only [portOfChannel, if_neg h]
    rw [ih]
    cases hr : portOfChannel key rest c <;> simp [Nat.add_assoc]

theorem portOfChannel_replicate_self (key : Port) (rest : List Port) :
    ∀ (k c : Nat), c < k → portOfChannel key (List.replicate k key ++ rest) c = some c := by
  intro k
  induction k with
  | zero => intro c h; omega
  | succ k ih =>
    intro c h
    rw [List.replicate_succ, List.cons_append]
    cases c with
    | zero => simp [portOfChannel]
    | succ c => simp [portOfChannel, ih c (by omega)]

theorem Scopes.run_append (s : Scopes) (pre post : List ScopeEvent) :
    s.run (pre ++ post) = (s.run pre).bind (fun mid => mid.run post) := by
  induction pre generalizing s with
  | nil => rfl
  | cons e es ih =>
    simp only [List.cons_append, Scopes.run]
    cases he : s.step e with
    | none => rfl
    | some s1 => exact ih s1

theorem Scopes.chain_step (b : Bool) (s s1 : Scopes) (e : ScopeEvent)
    (h : Scopes.chain b s.locks s.session.freezeChangeNotification)
    (hstep : s.step e = some s1) :
    Scopes.chain b s1.locks s1.session.freezeChangeNotification := by
  cases e with
  | enter =>
    simp only [Scopes.step, Option.some.injEq] at hstep
    subst hstep
    exact ⟨rfl, h⟩
  | leave =>
    unfold Scopes.step at hstep
    cases hl : s.locks with
    | nil => simp [hl] at hstep
    | cons lock rest =>
      simp only [hl, Option.some.injEq] at hstep
      subst hstep
      rw [hl] at h
      exact h.2

theorem Scopes.chain_run (b : Bool) (events : List ScopeEvent) :
    ∀ (s final : Scopes), Scopes.chain b s.locks s.session.freezeChangeNotification →
      s.run events = some final →
      Scopes.chain b final.locks final.session.freezeChangeNotification := by
  induction events with
  | nil =>
    intro s final h hrun
    simp only [Scopes.run, Option.some.injEq] at hrun
    subst hrun
    exact h
  | cons e es ih =>
    intro s final h hrun
    unfold Scopes.run at hrun
    cases he : s.step e with
    | none => simp [he] at hrun
    | some s1 =>
      simp only [he] at hrun
      exact ih s1 final (Scopes.chain_step b s s1 e h he) hrun

/-! Key range and transposition cells -/

/-- C3, as stated, fails.  On a node whose gain cells hold `-0.0f`,
`setGain (0.0f)` followed by `updateGain ()` leaves `-0.0f` in the cache, because
`-0.0f != 0.0f` is false: `getLastGain ()` returns `-0.0f`, which is not the
float `0.0f` that was set.  And after `setGain` of a NaN the returned value,
that NaN, does not compare `==` to it.  The same holds for the input gain. -/
theorem lastGain_keeps_zero_of_other_sign :
    ((negZeroGainNode.setGain Float32.zero).updateGain.getLastGain = Float32.negZero
        ∧ (negZeroGainNode.setGain Float32.zero).updateGain.getLastGain ≠ Float32.zero
        ∧ Float32.eq (sampleNode.setGain Float32.nan).updateGain.getLastGain Float32.nan
            = false)
      ∧ ((negZeroGainNode.setInputGain Float32.zero).updateGain.getLastInputGain
          = Float32.negZero
        ∧ (negZeroGainNode.setInputGain Float32.zero).updateGain.getLastInputGain
          ≠ Float32.zero
        ∧ Float32.eq (sampleNode.setInputGain Float32.nan).updateGain.getLastInputGain
            Float32.nan = false) := by
  decide

/-- C3, amended: for every node state and every float `g`, `getLastGain ()` right
after `setGain (g)` is the value it was before the call, and after one
`updateGain ()` it is `g` itself, except when `g` and the cached value are both
zeros, where the cache keeps its zero; in every case it holds the same value as
`g`, and it compares `==` to `g` exactly when `g` is not a NaN.  For `g = 0.5`
it is `0.5`.  The same holds for `setInputGain` and `getLastInputGain`. -/
theorem lastGain_lags_one_block (n : GraphNode) (g : Float32) :
    ((n.setGain g).getLastGain = n.getLastGain
        ∧ (n.setGain g).updateGain.getLastGain
            = (if (n.getLastGain.isZero && g.isZero) = true then n.getLastGain else g)
        ∧ Float32.same (n.setGain g).updateGain.getLastGain g
        ∧ Float32.eq (n.setGain g).updateGain.getLastGain g = !g.isNaN
        ∧ (n.setGain Float32.half).updateGain.getLastGain = Float32.half)
      ∧ ((n.setInputGain g).getLastInputGain = n.getLastInputGain
        ∧ (n.setInputGain g).updateGain.getLastInputGain
            = (if (n.getLastInputGain.isZero && g.isZero) = true then n.getLastInputGain
                else g)
        ∧ Float32.same (n.setInputGain g).updateGain.getLastInputGain g
        ∧ Float32.eq (n.setInputGain g).updateGain.getLastInputGain g = !g.isNaN
        ∧ (n.setInputGain Float32.half).updateGain.getLastInputGain = Float32.half) := by
  have hg : ∀ x : Float32, (n.setGain x).updateGain.getLastGain
      = if Float32.ne n.lastGain x = true then x else n.lastGain := by
    intro x
    rw [updateGain_getLastGain]; rfl
  have hi : ∀ x : Float32, (n.setInputGain x).updateGain.getLastInputGain
      = if Float32.ne n.lastInputGain x = true then x else n.lastInputGain := by
    intro x
    rw [updateGain_getLastInputGain]; rfl
  have hhalf : ∀ a : Float32,
      (if Float32.ne a Float32.half = true then Float32.half else a) = Float32.half := by
    intro a
    rw [Float32.ite_ne_eq_ite_isZero]
    have hz : Float32.half.isZero = false := by decide
    simp [hz]
  refine ⟨⟨rfl, ?_, ?_, ?_, ?_⟩, ⟨rfl, ?_, ?_, ?_, ?_⟩⟩
  · rw [hg, Float32.ite_ne_eq_ite_isZero]; rfl
  · rw [hg]; exact Float32.same_ite_ne _ _
  · rw [hg]; exact Float32.eq_ite_ne _ _
  · rw [hg]; exact hhalf _
  · rw [hi, Float32.ite_ne_eq_ite_isZero]; rfl
  · rw [hi]; exact Float32.same_ite_ne _ _
  · rw [hi]; exact Float32.eq_ite_ne _ _
  · rw [hi]; exact hhalf _

/-! Meters -/

/-- C4: for every node state, `getInputRMS (chan)` returns `0.0` for every
`chan ≥ inRMS.size ()` and `getOutputRMS (chan)` returns `0.0` for every
`chan ≥ outRMS.size ()`; the result is a defined value, so no element access
outside the array took place. -/
theorem getRMS_zero_at_or_above_size (n : GraphNode) (chanIn chanOut : Int)
    (hin : n.inRMS.size ≤ chanIn) (hout : n.outRMS.size ≤ chanOut) :
    n.getInputRMS chanIn = some Float32.zero
      ∧ n.getOutputRMS chanOut = some Float32.zero := by
  unfold GraphNode.getInputRMS GraphNode.getOutputRMS
  rw [if_neg (by omega), if_neg (by omega)]
  exact ⟨rfl, rfl⟩

/-- Witness of C4: channel 2 of a node with two input and two output meters, and
channel 0 of a node with no meter allocated. -/
theorem getRMS_zero_at_or_above_size_witness :
    (sampleNode.getInputRMS 2 = some Float32.zero
        ∧ sampleNode.getOutputRMS 7 = some Float32.zero)
      ∧ (bareNode.getInputRMS 0 = some Float32.zero
        ∧ bareNode.getOutputRMS 0 = some Float32.zero) :=
  ⟨getRMS_zero_at_or_above_size sampleNode 2 7 (by decide) (by decide),
    getRMS_zero_at_or_above_size bareNode 0 0 (by decide) (by decide)⟩

/-- C5 at the failing input: for the negative channel `-1` the guard
`chan < size ()` passes, so both getters evaluate `getUnchecked (-1)`, an element
access outside the array, instead of returning `0.0`; this holds with two meters
allocated and with none. -/
theorem getRMS_negative_channel_out_of_range :
    sampleNode.getInputRMS (-1) = none
      ∧ sampleNode.getOutputRMS (-1) = none
      ∧ bareNode.getInputRMS (-1) = none
      ∧ bareNode.getOutputRMS (-1) = none := by
  decide

/-! Key range read back -/

/-- C6: for every node state and every pair of ints, the range that
`getKeyRange ()` returns right after `setKeyRange (low, high)` has
`start ≤ end` (the `Range` constructor raises the end to the start); after
`setKeyRange (10, 5)` it is the range from 10 to 10. -/
theorem getKeyRange_start_le_end (n : GraphNode) (low high : Int) :
    (n.setKeyRange low high).getKeyRange.getStart
        ≤ (n.setKeyRange low high).getKeyRange.getEnd
      ∧ (n.setKeyRange 10 5).getKeyRange = ⟨10, 10⟩ := by
  refine ⟨?_, ?_⟩
  · show low ≤ max low high
    exact le_max_left low high
  · show Range.make 10 5 = ⟨10, 10⟩
    decide

/-- C7: for all ints with `0 ≤ low ≤ high ≤ 127`, `getKeyRange ()` after
`setKeyRange (low, high)` is exactly the range from `low` to `high`, through the
two-int overload and through the `Range<int>` overload alike, and either call
leaves the transposition cell, the four gain cells and the enabled cell as they
were. -/
theorem setKeyRange_getKeyRange_roundtrip (n : GraphNode) (low high : Int)
    (h0 : 0 ≤ low) (h1 : low ≤ high) (h2 : high ≤ 127) :
    ((n.setKeyRange low high).getKeyRange = ⟨low, high⟩
        ∧ (n.setKeyRangeOfRange ⟨low, high⟩).getKeyRange = ⟨low, high⟩)
      ∧ ((n.setKeyRange low high).transposeOffset = n.transposeOffset
        ∧ (n.setKeyRange low high).gain = n.gain
        ∧ (n.setKeyRange low high).lastGain = n.lastGain
        ∧ (n.setKeyRange low high).inputGain = n.inputGain
        ∧ (n.setKeyRange low high).lastInputGain = n.lastInputGain
        ∧ (n.setKeyRange low high).enabled = n.enabled)
      ∧ ((n.setKeyRangeOfRange ⟨low, high⟩).transposeOffset = n.transposeOffset
        ∧ (n.setKeyRangeOfRange ⟨low, high⟩).gain = n.gain
        ∧ (n.setKeyRangeOfRange ⟨low, high⟩).lastGain = n.lastGain
        ∧ (n.setKeyRangeOfRange ⟨low, high⟩).inputGain = n.inputGain
        ∧ (n.setKeyRangeOfRange ⟨low, high⟩).lastInputGain = n.lastInputGain
        ∧ (n.setKeyRangeOfRange ⟨low, high⟩).enabled = n.enabled) := by
  have _ := h0
  have _ := h2
  have hr : Range.make low high = ⟨low, high⟩ := by
    unfold Range.make
    rw [max_eq_right h1]
  exact ⟨⟨hr, hr⟩, ⟨rfl, rfl, rfl, rfl, rfl, rfl⟩, ⟨rfl, rfl, rfl, rfl, rfl, rfl⟩⟩

/-- Witness of C7: the range from 48 to 60 on the sample node. -/
theorem setKeyRange_getKeyRange_roundtrip_witness :
    (sampleNode.setKeyRange 48 60).getKeyRange = ⟨48, 60⟩
      ∧ (sampleNode.setKeyRangeOfRange ⟨48, 60⟩).getKeyRange = ⟨48, 60⟩ :=
  (setKeyRange_getKeyRange_roundtrip sampleNode 48 60 (by decide) (by decide) (by decide)).1

/-! Port model -/

/-- C8: for every port type, direction and channel `c` with
`0 ≤ c < getNumPorts (t, isInput)`, `getPortForChannel (t, c, isInput)` yields a
port `p` with `getChannelPort (p) = c`; that port is in range, has type `t` and
the asked direction, and sits where the layout audio inputs, audio outputs, MIDI
input, MIDI output puts it. -/
theorem getChannelPort_getPortForChannel (n : GraphNode) (t : PortType) (isInput : Bool)
    (c : Int) (h0 : 0 ≤ c) (h1 : c < n.getNumPortsOf t isInput) :
    ∃ p : Nat, n.getPortForChannel t c isInput = some p
      ∧ n.getChannelPort p = some c
      ∧ p < n.getNumPorts
      ∧ n.getPortType p = t
      ∧ n.isPortInput p = isInput
      ∧ ((t = PortType.audio ∧ isInput = true ∧ (p : Int) = c)
        ∨ (t = PortType.audio ∧ isInput = false ∧ (p : Int) = n.channels.audioIns + c)
        ∨ (t = PortType.midi ∧ isInput = true
            ∧ (p : Int) = n.channels.audioIns + n.channels.audioOuts + c)
        ∨ (t = PortType.midi ∧ isInput = false
            ∧ (p : Int) = n.channels.audioIns + n.channels.audioOuts
                + n.channels.midiIns + c)) := by
  obtain ⟨k, rfl⟩ := Int.eq_ofNat_of_zero_le h0
  have hk : k < n.channels.ports.count ⟨t, isInput⟩ := by
    unfold GraphNode.getNumPortsOf at h1
    exact_mod_cast h1
  obtain ⟨p, hp1, hp2, hp3⟩ := portOfChannel_spec ⟨t, isInput⟩ n.channels.ports k hk
  have hfwd : n.getPortForChannel t (k : Int) isInput = some p := by
    unfold GraphNode.getPortForChannel
    rw [if_neg (by omega)]
    simpa using hp1
  have hlt : p < n.channels.ports.length := by
    by_contra hge
    rw [List.getElem?_eq_none (by omega)] at hp2
    exact absurd hp2 (by simp)
  refine ⟨p, hfwd, ?_, hlt, ?_, ?_, ?_⟩
  · unfold GraphNode.getChannelPort
    rw [hp2]
    simp [hp3]
  · unfold GraphNode.getPortType
    rw [hp2]
  · unfold GraphNode.isPortInput
    rw [hp2]
  · have hcount := hk
    unfold ChannelConfig.ports at hcount hp1
    simp only [List.count_append, List.count_replicate] at hcount
    rw [List.append_assoc, List.append_assoc] at hp1
    cases t <;> cases isInput <;> simp at hcount
    · -- audio output
      rw [portOfChannel_replicate_ne _ _ (by decide),
        portOfChannel_replicate_self _ _ _ _ hcount] at hp1
      simp at hp1
      right; left
      exact ⟨rfl, rfl, by omega⟩
    · -- audio input
      rw [portOfChannel_replicate_self _ _ _ _ hcount] at hp1
      simp at hp1
      left
      exact ⟨rfl, rfl, by omega⟩
    · -- MIDI output
      rw [portOfChannel_replicate_ne _ _ (by decide), portOfChannel_replicate_ne _ _ (by decide),
        portOfChannel_replicate_ne _ _ (by decide),
        ← List.append_nil (List.replicate n.channels.midiOuts _),
        portOfChannel_replicate_self _ _ _ _ hcount] at hp1
      simp at hp1
      right; right; right
      exact ⟨rfl, rfl, by omega⟩
    · -- MIDI input
      rw [portOfChannel_replicate_ne _ _ (by decide), portOfChannel_replicate_ne _ _ (by decide),
        portOfChannel_replicate_self _ _ _ _ hcount] at hp1
      simp at hp1
      right; right; left
      exact ⟨rfl, rfl, by omega⟩

/-- Witness of C8: channel 1 of the audio outputs of the sample node (two audio
inputs, two audio outputs, one MIDI input, one MIDI output) is port 3. -/
theorem getChannelPort_getPortForChannel_witness :
    (1 : Int) < sampleNode.getNumPortsOf PortType.audio false
      ∧ ∃ p : Nat, sampleNode.getPortForChannel PortType.audio 1 false = some p
        ∧ sampleNode.getChannelPort p = some 1 := by
  refine ⟨by decide, ?_⟩
  obtain ⟨p, hp1, hp2, _⟩ :=
    getChannelPort_getPortForChannel sampleNode PortType.audio false 1 (by decide) (by decide)
  exact ⟨p, hp1, hp2⟩

/-! MIDI channel filter -/

/-- C9: after `setMidiChannels` with the set in which only channel 1 is set
(the number 2: bit 1 set, omni bit 0 clear) the membership test for channel 2 is
false, and for every 17-bit set whose omni bit is set the membership test is
true for every channel from 1 to 16. -/
theorem midiChannels_membership (n : GraphNode) (s : BigInteger) (c : Int)
    (hs : s < 2 ^ 17) (homni : BigInteger.get s 0 = true) (h1 : 1 ≤ c) (h16 : c ≤ 16) :
    (n.setMidiChannels 2).getMidiChannels.isOn 2 = false
      ∧ (n.setMidiChannels 2).getMidiChannels.isOn 1 = true
      ∧ (n.setMidiChannels s).getMidiChannels.isOn c = true := by
  have _ := hs
  have _ := h1
  have _ := h16
  refine ⟨?_, ?_, ?_⟩
  · show (BigInteger.get 2 0 || BigInteger.get 2 2) = false
    decide
  · show (BigInteger.get 2 0 || BigInteger.get 2 1) = true
    decide
  · show (BigInteger.get s 0 || BigInteger.get s c) = true
    rw [homni]
    rfl

/-- Witness of C9: the set with the omni bit and channel 3 (the number 9) accepts
channel 5. -/
theorem midiChannels_membership_witness :
    BigInteger.get 9 0 = true ∧ BigInteger.get 9 5 = false
      ∧ (sampleNode.setMidiChannels 9).getMidiChannels.isOn 5 = true :=
  ⟨by decide, by decide,
    (midiChannels_membership sampleNode 9 5 (by decide) (by decide) (by decide)
      (by decide)).2.2⟩

/-! Enablement -/

/-- C10: `isEnabled ()` is true exactly when the enabled cell holds 1 and false
for every other stored value, and a freshly constructed node, whose cell holds
its initial value 1, is enabled.  `isEnabled` is a `const` member made of one
atomic load: it is a function of the node state and has no successor state. -/
theorem isEnabled_iff_enabled_eq_one (n : GraphNode)
    (gain lastGain inputGain lastInputGain : Float32) (inRMS outRMS : CellArray)
    (channels : ChannelConfig) (midiChannels : MidiChannels) :
    (n.isEnabled = true ↔ n.enabled = 1)
      ∧ (n.isEnabled = false ↔ n.enabled ≠ 1)
      ∧ (GraphNode.construct gain lastGain inputGain lastInputGain inRMS outRMS channels
          midiChannels).enabled = 1
      ∧ (GraphNode.construct gain lastGain inputGain lastInputGain inRMS outRMS channels
          midiChannels).isEnabled = true := by
  refine ⟨?_, ?_, rfl, rfl⟩
  · simp [GraphNode.isEnabled]
  · simp [GraphNode.isEnabled]

/-! Gain synchronisation -/

/-- C11, as stated, fails.  With a NaN in the live gain cells, `updateGain ()`
copies the NaN into the cache, and `getLastGain () == getGain ()` is then false,
as every comparison with a NaN is.  With `0.0f` live and `-0.0f` cached,
`updateGain ()` leaves the cache alone, so the cached float is `-0.0f` and not
the live `0.0f`.  The same holds for the input gain. -/
theorem updateGain_cache_not_equal_to_live :
    (Float32.eq nanGainNode.updateGain.getLastGain nanGainNode.updateGain.getGain = false
        ∧ Float32.eq nanGainNode.updateGain.getLastInputGain
            nanGainNode.updateGain.getInputGain = false)
      ∧ (mixedZeroGainNode.updateGain.getLastGain = Float32.negZero
        ∧ mixedZeroGainNode.updateGain.getGain = Float32.zero
        ∧ mixedZeroGainNode.updateGain.getLastGain ≠ mixedZeroGainNode.updateGain.getGain)
      ∧ (mixedZeroGainNode.updateGain.getLastInputGain = Float32.negZero
        ∧ mixedZeroGainNode.updateGain.getInputGain = Float32.zero
        ∧ mixedZeroGainNode.updateGain.getLastInputGain
            ≠ mixedZeroGainNode.updateGain.getInputGain) := by
  decide

/-- C11, amended: for every node state, after `updateGain ()` each cached gain is
its live gain itself, except when the two were both zeros, where the cache keeps
its zero; in every case the two hold the same value, and
`getLastGain () == getGain ()` (likewise for the input gain) is true exactly
when the live gain is not a NaN.  The live cells `gain` and `inputGain` are as
before, each cached cell depends on its own pair only (changing `gain` and
`lastGain` leaves the updated `lastInputGain` as it is, and the other way
round), and a second `updateGain ()` leaves the state as the first one made
it. -/
theorem updateGain_synchronises (n : GraphNode) (g l : Float32) :
    (n.updateGain.getLastGain
          = (if (n.getLastGain.isZero && n.getGain.isZero) = true then n.getLastGain
              else n.getGain)
        ∧ n.updateGain.getLastInputGain
          = (if (n.getLastInputGain.isZero && n.getInputGain.isZero) = true
              then n.getLastInputGain else n.getInputGain))
      ∧ (Float32.same n.updateGain.getLastGain n.updateGain.getGain
        ∧ Float32.same n.updateGain.getLastInputGain n.updateGain.getInputGain)
      ∧ (Float32.eq n.updateGain.getLastGain n.updateGain.getGain = !n.getGain.isNaN
        ∧ Float32.eq n.updateGain.getLastInputGain n.updateGain.getInputGain
            = !n.getInputGain.isNaN)
      ∧ (n.updateGain.getGain = n.getGain ∧ n.updateGain.getInputGain = n.getInputGain)
      ∧ (({ n with gain := g, lastGain := l } : GraphNode).updateGain.getLastInputGain
            = n.updateGain.getLastInputGain
        ∧ ({ n with inputGain := g, lastInputGain := l } : GraphNode).updateGain.getLastGain
            = n.updateGain.getLastGain)
      ∧ n.updateGain.updateGain = n.updateGain := by
  have hlive : n.updateGain.getGain = n.getGain := by rw [updateGain_eq]; rfl
  have hliveIn : n.updateGain.getInputGain = n.getInputGain := by rw [updateGain_eq]; rfl
  refine ⟨⟨?_, ?_⟩, ⟨?_, ?_⟩, ⟨?_, ?_⟩, ⟨hlive, hliveIn⟩, ⟨?_, ?_⟩, ?_⟩
  · rw [updateGain_getLastGain, Float32.ite_ne_eq_ite_isZero]; rfl
  · rw [updateGain_getLastInputGain, Float32.ite_ne_eq_ite_isZero]; rfl
  · rw [hlive, updateGain_getLastGain]; exact Float32.same_ite_ne _ _
  · rw [hliveIn, updateGain_getLastInputGain]; exact Float32.same_ite_ne _ _
  · rw [hlive, updateGain_getLastGain]; exact Float32.eq_ite_ne _ _
  · rw [hliveIn, updateGain_getLastInputGain]; exact Float32.eq_ite_ne _ _
  · rw [updateGain_eq, updateGain_eq n]; rfl
  · rw [updateGain_eq, updateGain_eq n]; rfl
  · rw [updateGain_eq n.updateGain, updateGain_eq n]
    simp only [Float32.ite_ne_idem]

/-! The slider handler of the node editor -/

/-- C12, as stated, fails.  The node holds the transposition 30 and the key
range from 0 to 127, which satisfies `0 ≤ low ≤ high ≤ 127`; the low slider is
moved to 5, inside its range from 0 to 127.  The assertions of `setKeyRange`
hold and the key range is in bounds afterwards, but the offset cell, which the
key sliders do not write, still holds 30, outside `-24 ≤ offset ≤ 24`. -/
theorem sliderValueChanged_leaves_offset_out_of_range :
    GraphNode.keyRangeInvariant (sampleNode.setTransposeOffset 30)
      ∧ SliderId.keyLowSlider.inRange 5
      ∧ offsetView.sliderValueChangedAsserts SliderId.keyLowSlider 5 = true
      ∧ (offsetView.sliderValueChanged SliderId.keyLowSlider 5).node.getGraphNode
          = some ((sampleNode.setTransposeOffset 30).setKeyRange 5 127)
      ∧ GraphNode.keyRangeInvariant ((sampleNode.setTransposeOffset 30).setKeyRange 5 127)
      ∧ ((sampleNode.setTransposeOffset 30).setKeyRange 5 127).getTransposeOffset = 30
      ∧ ¬ GraphNode.transposeInvariant
          ((sampleNode.setTransposeOffset 30).setKeyRange 5 127) := by
  decide

/-- C12, amended: on a valid node whose stored key range satisfies
`0 ≤ low ≤ high ≤ 127`, when the slider value rounds to an integer `v` in the
range configured for the slider, the mutator call that `sliderValueChanged`
makes passes every assertion of that mutator, and the resulting node again
satisfies `0 ≤ low ≤ high ≤ 127`.  Its offset is `v`, within `-24 ≤ offset ≤ 24`,
when the transpose slider triggered the call, and is the stored offset
otherwise; so `-24 ≤ offset ≤ 24` holds afterwards when the transpose slider
triggered the call or the stored offset was in range.  Moving the low slider
above the stored high, or the high slider below the stored low, gives
`low = high = v`. -/
theorem sliderValueChanged_asserts_hold (view : NodeContentView) (object : GraphNode)
    (slider : SliderId) (v : Int)
    (hobject : view.node.getGraphNode = some object) (hvalid : view.node.isValid = true)
    (hrange : GraphNode.keyRangeInvariant object)
    (hv : slider.inRange v) :
    view.sliderValueChangedAsserts slider v = true
      ∧ (view.sliderValueChanged slider v).node.getGraphNode
          = some (NodeContentView.applySlider object slider v)
      ∧ GraphNode.keyRangeInvariant (NodeContentView.applySlider object slider v)
      ∧ (NodeContentView.applySlider object slider v).getTransposeOffset
          = (if slider = SliderId.transposeSlider then v else object.getTransposeOffset)
      ∧ (slider = SliderId.transposeSlider ∨ GraphNode.transposeInvariant object →
          GraphNode.transposeInvariant (NodeContentView.applySlider object slider v))
      ∧ (slider = SliderId.keyLowSlider → object.keyRangeHigh < v →
          (NodeContentView.applySlider object slider v).keyRangeLow = v
            ∧ (NodeContentView.applySlider object slider v).keyRangeHigh = v)
      ∧ (slider = SliderId.keyHiSlider → v < object.keyRangeLow →
          (NodeContentView.applySlider object slider v).keyRangeLow = v
            ∧ (NodeContentView.applySlider object slider v).keyRangeHigh = v) := by
  obtain ⟨h0, h1, h2⟩ := hrange
  have hmake : object.getKeyRange = ⟨object.keyRangeLow, object.keyRangeHigh⟩ := by
    unfold GraphNode.getKeyRange Range.make
    rw [max_eq_right h1]
  have hstep : (view.sliderValueChanged slider v).node.getGraphNode
      = some (NodeContentView.applySlider object slider v) := by
    unfold NodeContentView.sliderValueChanged
    rw [hobject]
    simp [hvalid, Node.getGraphNode]
  have hasserts : ∀ s : SliderId, view.sliderValueChangedAsserts s v
      = match s with
        | SliderId.keyLowSlider =>
          GraphNode.setKeyRangeAsserts (object.getKeyRange.setStart v).getStart
            (object.getKeyRange.setStart v).getEnd
        | SliderId.keyHiSlider =>
          GraphNode.setKeyRangeAsserts (object.getKeyRange.setEnd v).getStart
            (object.getKeyRange.setEnd v).getEnd
        | SliderId.transposeSlider => GraphNode.setTransposeOffsetAsserts v
        | SliderId.other => true := by
    intro s
    unfold NodeContentView.sliderValueChangedAsserts
    rw [hobject]
    simp [hvalid]
  have hkeep : ∀ h : slider = SliderId.transposeSlider ∨ GraphNode.transposeInvariant object,
      slider ≠ SliderId.transposeSlider → GraphNode.transposeInvariant object := by
    intro h hne
    rcases h with h | h
    · exact absurd h hne
    · exact h
  refine ⟨?_, hstep, ?_⟩
  · rw [hasserts]
    cases slider
    · obtain ⟨hv0, hv1⟩ := hv
      rw [hmake]
      simp only [Range.setStart, Range.getStart, Range.getEnd, setKeyRangeAsserts_iff]
      split_ifs <;> omega
    · obtain ⟨hv0, hv1⟩ := hv
      rw [hmake]
      simp only [Range.setEnd, Range.getStart, Range.getEnd, setKeyRangeAsserts_iff]
      split_ifs <;> omega
    · obtain ⟨hv0, hv1⟩ := hv
      simp only [setTransposeOffsetAsserts_iff]
      omega
    · rfl
  · cases slider
    · obtain ⟨hv0, hv1⟩ := hv
      have hne : SliderId.keyLowSlider ≠ SliderId.transposeSlider := by decide
      refine ⟨?_, ?_, fun h => hkeep h hne, ?_, ?_⟩
      · simp only [NodeContentView.applySlider, GraphNode.setKeyRangeOfRange, hmake,
          GraphNode.setKeyRange, Range.setStart, Range.getStart, Range.getEnd,
          GraphNode.keyRangeInvariant]
        split_ifs <;> omega
      · rw [if_neg hne]; rfl
      · intro _ hlt
        simp [NodeContentView.applySlider, GraphNode.setKeyRangeOfRange, hmake,
          GraphNode.setKeyRange, Range.setStart, Range.getStart, Range.getEnd, hlt]
      · intro h
        exact absurd h (by decide)
    · obtain ⟨hv0, hv1⟩ := hv
      have hne : SliderId.keyHiSlider ≠ SliderId.transposeSlider := by decide
      refine ⟨?_, ?_, fun h => hkeep h hne, ?_, ?_⟩
      · simp only [NodeContentView.applySlider, GraphNode.setKeyRangeOfRange, hmake,
          GraphNode.setKeyRange, Range.setEnd, Range.getStart, Range.getEnd,
          GraphNode.keyRangeInvariant]
        split_ifs <;> omega
      · rw [if_neg hne]; rfl
      · intro h
        exact absurd h (by decide)
      · intro _ hlt
        simp [NodeContentView.applySlider, GraphNode.setKeyRangeOfRange, hmake,
          GraphNode.setKeyRange, Range.setEnd, Range.getStart, Range.getEnd, hlt]
    · obtain ⟨hv0, hv1⟩ := hv
      refine ⟨⟨h0, h1, h2⟩, ?_, fun _ => ⟨hv0, hv1⟩, ?_, ?_⟩
      · rw [if_pos rfl]; rfl
      · intro h
        exact absurd h (by decide)
      · intro h
        exact absurd h (by decide)
    · have hne : SliderId.other ≠ SliderId.transposeSlider := by decide
      refine ⟨⟨h0, h1, h2⟩, ?_, fun h => hkeep h hne, ?_, ?_⟩
      · rw [if_neg hne]; rfl
      · intro h
        exact absurd h (by decide)
      · intro h
        exact absurd h (by decide)

/-- Witness of the amended C12: on the sample view (key range from 10 to 20
stored) the low slider is moved to 30, above the stored high. -/
theorem sliderValueChanged_asserts_hold_witness :
    sampleView.sliderValueChangedAsserts SliderId.keyLowSlider 30 = true
      ∧ (sampleView.sliderValueChanged SliderId.keyLowSlider 30).node.getGraphNode
          = some (NodeContentView.applySlider (sampleNode.setKeyRange 10 20)
              SliderId.keyLowSlider 30)
      ∧ GraphNode.transposeInvariant (NodeContentView.applySlider
            (sampleNode.setKeyRange 10 20) SliderId.keyLowSlider 30)
      ∧ (NodeContentView.applySlider (sampleNode.setKeyRange 10 20)
            SliderId.keyLowSlider 30).keyRangeLow = 30
      ∧ (NodeContentView.applySlider (sampleNode.setKeyRange 10 20)
            SliderId.keyLowSlider 30).keyRangeHigh = 30 :=
  have h := sliderValueChanged_asserts_hold sampleView (sampleNode.setKeyRange 10 20)
    SliderId.keyLowSlider 30 rfl rfl (by decide) (by decide)
  ⟨h.1, h.2.1, h.2.2.2.2.1 (Or.inr (by decide)), h.2.2.2.2.2.1 rfl (by decide)⟩

/-- C13: when the node handle is null or the node is not valid,
`sliderValueChanged` leaves the view, and with it the node and the value tree,
as it was; otherwise, whichever slider triggered the call, on return the
`keyStart`, `keyEnd` and `transpose` properties of the tree are
`getKeyRange ().getStart ()`, `getKeyRange ().getEnd ()` and
`getTransposeOffset ()` of the node as it is after the mutation, and the other
properties of the tree are as before. -/
theorem sliderValueChanged_tree_in_step (view : NodeContentView) (slider : SliderId)
    (v : Int) :
    ((view.node.getGraphNode = none ∨ view.node.isValid = false) →
        view.sliderValueChanged slider v = view)
      ∧ (∀ object : GraphNode, view.node.getGraphNode = some object →
          view.node.isValid = true →
          ∃ object1 : GraphNode,
            object1 = NodeContentView.applySlider object slider v
              ∧ (view.sliderValueChanged slider v).node.getGraphNode = some object1
              ∧ (view.sliderValueChanged slider v).node.getValueTree.getProperty
                  Identifier.keyStart = Var.int object1.getKeyRange.getStart
              ∧ (view.sliderValueChanged slider v).node.getValueTree.getProperty
                  Identifier.keyEnd = Var.int object1.getKeyRange.getEnd
              ∧ (view.sliderValueChanged slider v).node.getValueTree.getProperty
                  Identifier.transpose = Var.int object1.getTransposeOffset
              ∧ (view.sliderValueChanged slider v).node.getValueTree.getProperty
                  Identifier.name = view.node.getValueTree.getProperty Identifier.name
              ∧ (view.sliderValueChanged slider v).node.getValueTree.getProperty
                  Identifier.midiChannels
                  = view.node.getValueTree.getProperty Identifier.midiChannels) := by
  constructor
  · intro h
    unfold NodeContentView.sliderValueChanged
    cases hobject : view.node.getGraphNode with
    | none => rfl
    | some object =>
      rcases h with h | h
      · rw [hobject] at h
        exact absurd h (by simp)
      · simp [h]
  · intro object hobject hvalid
    refine ⟨NodeContentView.applySlider object slider v, rfl, ?_⟩
    unfold NodeContentView.sliderValueChanged
    rw [hobject]
    simp [hvalid, Node.getGraphNode, Node.getValueTree, ValueTree.getProperty,
      ValueTree.setProperty]

/-- Witness of C13: on the sample view (key range from 10 to 20 stored) the high
slider is moved to 5, below the stored low, and the tree receives the range from
5 to 5; a view whose node handle is null is left as it was. -/
theorem sliderValueChanged_tree_in_step_witness :
    (sampleView.sliderValueChanged SliderId.keyHiSlider 5).node.getValueTree.getProperty
        Identifier.keyStart = Var.int 5
      ∧ (sampleView.sliderValueChanged SliderId.keyHiSlider 5).node.getValueTree.getProperty
        Identifier.keyEnd = Var.int 5
      ∧ (sampleView.sliderValueChanged SliderId.keyHiSlider 5).node.getValueTree.getProperty
        Identifier.transpose = Var.int 0
      ∧ NodeContentView.sliderValueChanged ⟨⟨none, true, emptyTree⟩⟩ SliderId.keyHiSlider 5
        = ⟨⟨none, true, emptyTree⟩⟩ := by
  obtain ⟨object1, h1, _, h3, h4, h5, _⟩ :=
    (sliderValueChanged_tree_in_step sampleView SliderId.keyHiSlider 5).2
      (sampleNode.setKeyRange 10 20) rfl rfl
  subst h1
  exact ⟨h3, h4, h5,
    (sliderValueChanged_tree_in_step ⟨⟨none, true, emptyTree⟩⟩ SliderId.keyHiSlider 5).1
      (Or.inl rfl)⟩

/-! The frozen lock of the session -/

/-- C14: for either value `b` of `freezeChangeNotification`, a
`ScopedFrozenLock` makes `notificationsFrozen ()` true and its destruction makes
it `b` again; and through any sequence of constructions and last-in first-out
destructions, at every point of the sequence `notificationsFrozen ()` is true
while at least one lock is live (so the destruction of an inner lock does not
unfreeze a session that an outer lock froze) and is `b` when none is. -/
theorem scopedFrozenLock_saves_and_restores (b : Bool) (pre post : List ScopeEvent)
    (final : Scopes)
    (hrun : Scopes.run ⟨⟨b⟩, []⟩ (pre ++ post) = some final) :
    ((ScopedFrozenLock.construct ⟨b⟩).2.notificationsFrozen = true
        ∧ ((ScopedFrozenLock.construct ⟨b⟩).1.destroy
            (ScopedFrozenLock.construct ⟨b⟩).2).notificationsFrozen = b)
      ∧ ∃ mid : Scopes, Scopes.run ⟨⟨b⟩, []⟩ pre = some mid
          ∧ mid.run post = some final
          ∧ (mid.locks ≠ [] → mid.session.notificationsFrozen = true)
          ∧ (mid.locks = [] → mid.session.notificationsFrozen = b)
          ∧ (final.locks ≠ [] → final.session.notificationsFrozen = true)
          ∧ (final.locks = [] → final.session.notificationsFrozen = b) := by
  refine ⟨⟨rfl, rfl⟩, ?_⟩
  have hread : ∀ s : Scopes, Scopes.chain b s.locks s.session.freezeChangeNotification →
      (s.locks ≠ [] → s.session.notificationsFrozen = true)
        ∧ (s.locks = [] → s.session.notificationsFrozen = b) := by
    intro s hs
    cases hl : s.locks with
    | nil =>
      rw [hl] at hs
      exact ⟨fun h => absurd rfl h, fun _ => hs⟩
    | cons lock rest =>
      rw [hl] at hs
      exact ⟨fun _ => hs.1, fun h => absurd h (by simp)⟩
  have hstart : Scopes.chain b (⟨⟨b⟩, []⟩ : Scopes).locks
      (⟨⟨b⟩, []⟩ : Scopes).session.freezeChangeNotification := rfl
  rw [Scopes.run_append] at hrun
  cases hpre : Scopes.run ⟨⟨b⟩, []⟩ pre with
  | none => simp [hpre] at hrun
  | some mid =>
    rw [hpre] at hrun
    have hpost : mid.run post = some final := hrun
    have hmid := Scopes.chain_run b pre _ mid hstart hpre
    have hfinal := Scopes.chain_run b post mid final hmid hpost
    exact ⟨mid, rfl, hpost, (hread mid hmid).1, (hread mid hmid).2,
      (hread final hfinal).1, (hread final hfinal).2⟩

/-- Witness of C14: on a session that is not frozen, two locks are constructed
and the inner one is destroyed (the session is still frozen), then the outer one
is destroyed (the session is not frozen any more). -/
theorem scopedFrozenLock_saves_and_restores_witness :
    ∃ mid final : Scopes,
      Scopes.run ⟨⟨false⟩, []⟩ [ScopeEvent.enter, ScopeEvent.enter, ScopeEvent.leave]
          = some mid
        ∧ mid.run [ScopeEvent.leave] = some final
        ∧ mid.locks ≠ [] ∧ mid.session.notificationsFrozen = true
        ∧ final.locks = [] ∧ final.session.notificationsFrozen = false := by
  obtain ⟨_, mid, h1, h2, h3, _, _, h6⟩ :=
    scopedFrozenLock_saves_and_restores false
      [ScopeEvent.enter, ScopeEvent.enter, ScopeEvent.leave] [ScopeEvent.leave]
      ⟨⟨false⟩, []⟩ (by decide)
  have hmid : mid = ⟨⟨true⟩, [⟨false⟩]⟩ := by
    have : Scopes.run ⟨⟨false⟩, []⟩ [ScopeEvent.enter, ScopeEvent.enter, ScopeEvent.leave]
        = some ⟨⟨true⟩, [⟨false⟩]⟩ := by decide
    rw [this] at h1
    exact (Option.some.inj h1).symm
  subst hmid
  exact ⟨_, _, h1, h2, by decide, h3 (by decide), rfl, h6 rfl⟩

/-! The reset of the MIDI channel selection -/

/-- C15: whatever the channel selector holds, the double click on the MIDI Ch.
label hands it one and the same set, in which bit 0 (omni) is set and every bit
from 1 to 16 is clear; no other bit is set either, so it is exactly the
omni-only set. -/
theorem midiChannelLabel_reset_is_omni_only {Widget : Type}
    (setChannels : Widget → BigInteger → Widget) (midiChannel : Widget) (bit : Int) :
    NodeContentView.midiChannelLabelOnDoubleClicked setChannels midiChannel
        = setChannels midiChannel NodeContentView.resetChannels
      ∧ BigInteger.get NodeContentView.resetChannels 0 = true
      ∧ (∀ channel : Fin 16,
          BigInteger.get NodeContentView.resetChannels ((channel.val : Int) + 1) = false)
      ∧ BigInteger.get NodeContentView.resetChannels bit = decide (bit = 0) := by
  have hreset : NodeContentView.resetChannels = 1 := by decide
  refine ⟨rfl, by decide, by decide, ?_⟩
  rw [hreset]
  unfold BigInteger.get
  by_cases h0 : 0 ≤ bit
  · obtain ⟨k, rfl⟩ := Int.eq_ofNat_of_zero_le h0
    cases k with
    | zero => decide
    | succ k =>
      have hk : Nat.testBit 1 (k + 1) = false := by
        rw [Nat.testBit_succ]
        simp
      simp only [Int.toNat_ofNat, hk, Bool.and_false]
      symm
      rw [decide_eq_false_iff_not]
      omega
  · have hne : ¬ bit = 0 := by omega
    simp [h0, hne]

end Element
